import Mathlib

/-!
Verification of the player-term Player Controller (`src/main.rs`).

The `App` struct and its methods (`new`, `play`, `pause`, `next_song`,
`previous_song`, `select_first_song`) are embedded shallowly.  Stateful Rust
methods on `&mut self` become functions `App → App` (paired with the result
and the list of audio-backend calls they make, where relevant).  Fallible
calls to the audio backend (`File::open`, `Decoder::new`, `Sink::try_new`)
are modelled by an environment `Env` of oracles saying which calls succeed.
Track paths are modelled as their display strings.
-/

/-- A rodio `Sink`: the live playback handle.  Its only state visible to the
program is whether it is paused (toggled via `sink.pause()` / `sink.play()`). -/
structure Sink where
  paused : Bool
  deriving DecidableEq, Repr

/-- The `App` struct of `src/main.rs`.  `stream` and `stream_handle` hold the
identifier of the audio output device opened by `OutputStream::try_default()`;
the device itself is opaque, so it is modelled by a `Nat` tag. -/
structure App where
  songs : List String
  current_song : Option Nat
  playing : Bool
  sink : Option Sink
  stream : Option Nat
  stream_handle : Option Nat
  deriving DecidableEq, Repr

/-- Calls the Controller makes into the audio backend / OS, in order. -/
inductive BackendEvent where
  /-- `OutputStream::try_default()` — opening the audio output device. -/
  | openOutput
  /-- `sink.stop()` on the handle taken out of `self.sink`. -/
  | stopSink
  /-- `File::open(song_path)`. -/
  | openFile (path : String)
  /-- `Decoder::new(file)`. -/
  | decode (path : String)
  /-- `Sink::try_new(&**handle)` — allocating a sink on output device `h`. -/
  | sinkTryNew (h : Nat)
  /-- `sink.append(source)`. -/
  | sinkAppend
  /-- `sink.play()`. -/
  | sinkPlay
  /-- `sink.pause()`. -/
  | sinkPause
  deriving DecidableEq, Repr

/-- The error kinds `App::play` can surface (each `?` site in order). -/
inductive PlayError where
  | fileOpenError
  | decodeError
  | deviceError
  deriving DecidableEq, Repr

/-- Oracles deciding which fallible backend calls succeed. -/
structure Env where
  fileOpen : String → Bool
  decode : String → Bool
  sinkNew : Bool

/-- Everything `App::play` produces: the updated `self`, the backend calls it
made (in order), and its `Result<()>`. -/
structure PlayOutcome where
  app : App
  events : List BackendEvent
  result : Except PlayError Unit
  deriving Repr

/-- Error of `App::new` when `OutputStream::try_default()` fails. -/
inductive NewError where
  | deviceError
  deriving DecidableEq, Repr

/-- `App::new`: opens the audio output device (tag `d`) once; on success all
other fields start empty.  `ok` is the oracle for `OutputStream::try_default()`. -/
def App.new (ok : Bool) (d : Nat) : Except NewError App × List BackendEvent :=
  if ok then
    (Except.ok
      { songs := [], current_song := none, playing := false, sink := none,
        stream := some d, stream_handle := some d },
     [BackendEvent.openOutput])
  else
    (Except.error NewError.deviceError, [BackendEvent.openOutput])

/-- The state right after startup in `main`: `App::new` succeeded (device tag
`d`), the catalog was pushed into `songs`, and no operation has run yet. -/
def appInit (songs : List String) (d : Nat) : App :=
  { songs := songs, current_song := none, playing := false, sink := none,
    stream := some d, stream_handle := some d }

/-- `App::play`.  Mirrors `src/main.rs` lines 41-62: guard on `current_song`,
guard on `songs.get(index)`, `self.sink.take()` + `sink.stop()`, guard on
`stream_handle`, then `File::open`, `Decoder::new`, `Sink::try_new` (each may
fail; `?` returns with `self` as mutated so far), `append`, `play`,
store the new sink and set `playing = true`. -/
def App.play (env : Env) (a : App) : PlayOutcome :=
  match a.current_song with
  | none => ⟨a, [], Except.ok ()⟩
  | some index =>
    match a.songs.get? index with
    | none => ⟨a, [], Except.ok ()⟩
    | some song_path =>
      let stopEvents : List BackendEvent :=
        match a.sink with
        | some _ => [BackendEvent.stopSink]
        | none => []
      let a1 : App := { a with sink := none }
      match a1.stream_handle with
      | none => ⟨a1, stopEvents, Except.ok ()⟩
      | some handle =>
        if env.fileOpen song_path then
          if env.decode song_path then
            if env.sinkNew then
              ⟨{ a1 with sink := some { paused := false }, playing := true },
               stopEvents ++
                 [BackendEvent.openFile song_path, BackendEvent.decode song_path,
                  BackendEvent.sinkTryNew handle, BackendEvent.sinkAppend,
                  BackendEvent.sinkPlay],
               Except.ok ()⟩
            else
              ⟨a1,
               stopEvents ++
                 [BackendEvent.openFile song_path, BackendEvent.decode song_path,
                  BackendEvent.sinkTryNew handle],
               Except.error PlayError.deviceError⟩
          else
            ⟨a1,
             stopEvents ++
               [BackendEvent.openFile song_path, BackendEvent.decode song_path],
             Except.error PlayError.decodeError⟩
        else
          ⟨a1, stopEvents ++ [BackendEvent.openFile song_path],
           Except.error PlayError.fileOpenError⟩

/-- `App::pause`: if a sink exists, call `sink.pause()` when `playing`, else
`sink.play()`, then flip the `playing` flag; otherwise do nothing. -/
def App.pause (a : App) : App × List BackendEvent :=
  match a.sink with
  | some s =>
    if a.playing then
      ({ a with sink := some { s with paused := true }, playing := !a.playing },
       [BackendEvent.sinkPause])
    else
      ({ a with sink := some { s with paused := false }, playing := !a.playing },
       [BackendEvent.sinkPlay])
  | none => (a, [])

/-- `App::next_song`. -/
def App.next_song (a : App) : App :=
  if !a.songs.isEmpty then
    { a with current_song := some (match a.current_song with
        | some current => (current + 1) % a.songs.length
        | none => 0) }
  else a

/-- `App::previous_song`. -/
def App.previous_song (a : App) : App :=
  if !a.songs.isEmpty then
    { a with current_song := some (match a.current_song with
        | some current => (current + a.songs.length - 1) % a.songs.length
        | none => 0) }
  else a

/-- `App::select_first_song`. -/
def App.select_first_song (a : App) : App :=
  if !a.songs.isEmpty && a.current_song.isNone then
    { a with current_song := some 0 }
  else a

/-- The spec's PlaybackState, derived from the fields the code keeps:
no sink means `Stopped`; with a sink, the `playing` flag picks
`Playing` vs `Paused`. -/
inductive PlaybackState where
  | Stopped
  | Playing
  | Paused
  deriving DecidableEq, Repr

/-- Derived PlaybackState of an `App`. -/
def playbackState (a : App) : PlaybackState :=
  match a.sink with
  | none => PlaybackState.Stopped
  | some _ => if a.playing then PlaybackState.Playing else PlaybackState.Paused

/-- The status line computed in `run_app`'s draw closure: `none` renders
"No song selected"; `some (name, flag)` renders `Now Playing: name` with
`[Playing]` when `flag` is `true` and `[Paused]` otherwise. -/
def now_playing_snapshot (a : App) : Option (String × Bool) :=
  match a.current_song with
  | none => none
  | some current =>
    match a.songs.get? current with
    | none => none
    | some path => some (path, a.playing)

/-- Number of live playback handles held by the Controller. -/
def liveHandles (a : App) : Nat :=
  match a.sink with
  | some _ => 1
  | none => 0

/-- Is this backend call a sink construction (`Sink::try_new`)? -/
def BackendEvent.isCreate : BackendEvent → Bool
  | BackendEvent.sinkTryNew _ => true
  | _ => false

/-- Is this backend call a `sink.stop()`? -/
def BackendEvent.isStop : BackendEvent → Bool
  | BackendEvent.stopSink => true
  | _ => false

/-- Is this backend call a device open (`OutputStream::try_default`)? -/
def BackendEvent.isOpen : BackendEvent → Bool
  | BackendEvent.openOutput => true
  | _ => false

/-- Once the first sink construction appears in a trace, no `sink.stop()`
follows it: every release of an old handle precedes the new construction. -/
def stopBeforeCreate (evs : List BackendEvent) : Bool :=
  (evs.dropWhile (fun e => !e.isCreate)).all (fun e => !e.isStop)

/-- States reachable from startup by Controller operations.  The catalog is
loaded (arbitrarily) right after `App::new`, before any operation runs, as
`main` does; `play` may run under any environment. -/
inductive Reachable : App → Prop
  | init (songs : List String) (d : Nat) : Reachable (appInit songs d)
  | next {a : App} : Reachable a → Reachable (App.next_song a)
  | prev {a : App} : Reachable a → Reachable (App.previous_song a)
  | selectFirst {a : App} : Reachable a → Reachable (App.select_first_song a)
  | pause {a : App} : Reachable a → Reachable (App.pause a).1
  | play {a : App} (env : Env) : Reachable a → Reachable (App.play env a).app

/-- Environment in which every backend call succeeds. -/
def envOk : Env :=
  { fileOpen := fun _ => true, decode := fun _ => true, sinkNew := true }

/-- Environment in which decoding fails (bad audio data) but all else works. -/
def envDecodeFail : Env :=
  { fileOpen := fun _ => true, decode := fun _ => false, sinkNew := true }

/-- Startup state with a one-track catalog. -/
def app0 : App := appInit ["t.mp3"] 0

/-- `app0` after `select_first_song`: track 0 selected, still stopped. -/
def app1 : App := App.select_first_song app0

/-- `app1` after a successful `play`: track 0 playing with a live sink. -/
def app2 : App := (App.play envOk app1).app

/-! ### Frame lemmas: which fields each operation can touch -/

lemma play_app_frame (env : Env) (a : App) :
    (App.play env a).app.songs = a.songs ∧
    (App.play env a).app.current_song = a.current_song ∧
    (App.play env a).app.stream = a.stream ∧
    (App.play env a).app.stream_handle = a.stream_handle := by
  unfold App.play
  repeat' split
  all_goals (cases a.stream_handle <;> simp)

lemma pause_frame (a : App) :
    (App.pause a).1.songs = a.songs ∧
    (App.pause a).1.current_song = a.current_song ∧
    (App.pause a).1.stream = a.stream ∧
    (App.pause a).1.stream_handle = a.stream_handle ∧
    (App.pause a).1.sink.isSome = a.sink.isSome := by
  unfold App.pause
  repeat' split
  all_goals simp_all

lemma next_song_frame (a : App) :
    (App.next_song a).songs = a.songs ∧
    (App.next_song a).playing = a.playing ∧
    (App.next_song a).sink = a.sink ∧
    (App.next_song a).stream = a.stream ∧
    (App.next_song a).stream_handle = a.stream_handle := by
  unfold App.next_song
  repeat' split
  all_goals simp

lemma previous_song_frame (a : App) :
    (App.previous_song a).songs = a.songs ∧
    (App.previous_song a).playing = a.playing ∧
    (App.previous_song a).sink = a.sink ∧
    (App.previous_song a).stream = a.stream ∧
    (App.previous_song a).stream_handle = a.stream_handle := by
  unfold App.previous_song
  repeat' split
  all_goals simp

lemma select_first_song_frame (a : App) :
    (App.select_first_song a).songs = a.songs ∧
    (App.select_first_song a).playing = a.playing ∧
    (App.select_first_song a).sink = a.sink ∧
    (App.select_first_song a).stream = a.stream ∧
    (App.select_first_song a).stream_handle = a.stream_handle := by
  unfold App.select_first_song
  repeat' split
  all_goals simp

/-- Every reachable state still holds the output device opened at startup. -/
lemma reachable_stream_handle {a : App} (h : Reachable a) :
    ∃ d, a.stream_handle = some d := by
  induction h with
  | init songs d => exact ⟨d, rfl⟩
  | next h ih => rw [(next_song_frame _).2.2.2.2]; exact ih
  | prev h ih => rw [(previous_song_frame _).2.2.2.2]; exact ih
  | selectFirst h ih => rw [(select_first_song_frame _).2.2.2.2]; exact ih
  | pause h ih => rw [(pause_frame _).2.2.2.1]; exact ih
  | play env h ih => rw [(play_app_frame _ _).2.2.2]; exact ih

/-! ### Modular arithmetic of the navigation operations -/

lemma prev_next_mod (i N : Nat) (h : i < N) :
    ((i + 1) % N + N - 1) % N = i := by
  rcases Nat.lt_or_ge (i + 1) N with h1 | h1
  · rw [Nat.mod_eq_of_lt h1]
    have h2 : i + 1 + N - 1 = i + N := by omega
    rw [h2, Nat.add_mod_right, Nat.mod_eq_of_lt h]
  · have hiN : i + 1 = N := by omega
    rw [hiN, Nat.mod_self]
    have h2 : 0 + N - 1 = N - 1 := by omega
    rw [h2, Nat.mod_eq_of_lt (by omega)]
    omega

lemma next_prev_mod (i N : Nat) (h : i < N) :
    ((i + N - 1) % N + 1) % N = i := by
  rcases Nat.eq_zero_or_pos i with h0 | h0
  · subst h0
    have h2 : 0 + N - 1 = N - 1 := by omega
    have h4 : (N - 1) % N = N - 1 := Nat.mod_eq_of_lt (by omega)
    rw [h2, h4]
    have h3 : N - 1 + 1 = N := by omega
    rw [h3, Nat.mod_self]
  · have h2 : i + N - 1 = (i - 1) + N := by omega
    have h4 : (i - 1) % N = i - 1 := Nat.mod_eq_of_lt (by omega)
    rw [h2, Nat.add_mod_right, h4]
    have h3 : i - 1 + 1 = i := by omega
    rw [h3, Nat.mod_eq_of_lt h]

/-- C8: `next_song` and `previous_song` modify only the selection: the
`playing` flag, the sink, the catalog and the derived PlaybackState are
unchanged, so a Paused state stays Paused across navigation. -/
theorem C8_nav_frame (a : App) :
    (App.next_song a).playing = a.playing ∧
    (App.next_song a).sink = a.sink ∧
    (App.next_song a).songs = a.songs ∧
    playbackState (App.next_song a) = playbackState a ∧
    (App.previous_song a).playing = a.playing ∧
    (App.previous_song a).sink = a.sink ∧
    (App.previous_song a).songs = a.songs ∧
    playbackState (App.previous_song a) = playbackState a := by
  unfold App.next_song App.previous_song playbackState
  repeat' split
  all_goals simp_all

/-- C10: `play` never modifies the catalog or the selection, whether it
returns success or an error. -/
theorem C10_play_keeps_selection (env : Env) (a : App) :
    (App.play env a).app.songs = a.songs ∧
    (App.play env a).app.current_song = a.current_song :=
  ⟨(play_app_frame env a).1, (play_app_frame env a).2.1⟩

/-- C7: operations on an empty catalog or an absent/out-of-range selection
are silent no-ops: navigation on an empty catalog leaves the state (hence a
`none` selection) unchanged, and `play` with no selection or an out-of-range
index returns `Ok` having changed nothing and made no backend call. -/
theorem C7_silent_noops (env : Env) (a : App) :
    (a.songs = [] → App.next_song a = a ∧ App.previous_song a = a) ∧
    (a.current_song = none → App.play env a = ⟨a, [], Except.ok ()⟩) ∧
    (∀ i, a.current_song = some i → a.songs.get? i = none →
      App.play env a = ⟨a, [], Except.ok ()⟩) := by
  refine ⟨fun hs => ?_, fun hc => ?_, fun i hc hg => ?_⟩
  · constructor
    · unfold App.next_song
      simp [hs]
    · unfold App.previous_song
      simp [hs]
  · unfold App.play
    rw [hc]
  · simp only [App.play, hc, hg]

/-- C7 witness at a concrete input: on the empty catalog with nothing
selected, `play` in the all-success environment is a silent no-op. -/
theorem C7_witness :
    App.play envOk (appInit [] 0) = ⟨appInit [] 0, [], Except.ok ()⟩ :=
  (C7_silent_noops envOk (appInit [] 0)).2.1 rfl

/-- C6: `pause` (the spec's toggle_pause) is a no-op without a sink, makes no
sink-creating or sink-stopping backend call, flips Playing to Paused and
Paused to Playing when a sink exists, and applied twice restores the
original PlaybackState. -/
theorem C6_toggle_pause (a : App) :
    (a.sink = none → App.pause a = (a, [])) ∧
    (App.pause a).1.sink.isSome = a.sink.isSome ∧
    (App.pause a).2.all (fun e => !e.isCreate && !e.isStop) = true ∧
    (∀ s, a.sink = some s → a.playing = true →
      playbackState (App.pause a).1 = PlaybackState.Paused) ∧
    (∀ s, a.sink = some s → a.playing = false →
      playbackState (App.pause a).1 = PlaybackState.Playing) ∧
    playbackState (App.pause (App.pause a).1).1 = playbackState a := by
  unfold App.pause playbackState BackendEvent.isCreate BackendEvent.isStop
  repeat' split
  all_goals simp_all

/-- C6 witness at a concrete input: from `app2` (Playing), two toggles
return the PlaybackState to `Playing`. -/
theorem C6_witness :
    playbackState (App.pause (App.pause app2).1).1 = playbackState app2 :=
  (C6_toggle_pause app2).2.2.2.2.2

/-- C4: on a non-empty catalog, `previous_song` decrements the selected index
modulo N, wrapping from 0 to N-1; on an absent selection both `next_song` and
`previous_song` select track 0. -/
theorem C4_previous_decrements (a : App) (hN : a.songs ≠ []) :
    (a.current_song = none → (App.next_song a).current_song = some 0 ∧
      (App.previous_song a).current_song = some 0) ∧
    (∀ i, a.current_song = some i → (App.previous_song a).current_song =
      some ((i + a.songs.length - 1) % a.songs.length)) ∧
    (a.current_song = some 0 → (App.previous_song a).current_song =
      some (a.songs.length - 1)) ∧
    (∀ i, a.current_song = some i → 0 < i → i < a.songs.length →
      (App.previous_song a).current_song = some (i - 1)) := by
  have hne : a.songs.isEmpty = false := by
    cases hs : a.songs
    · exact absurd hs hN
    · rfl
  have hlen : 0 < a.songs.length := by
    cases hs : a.songs
    · exact absurd hs hN
    · simp [hs]
  refine ⟨fun hc => ?_, fun i hc => ?_, fun hc => ?_, fun i hc h0 hi => ?_⟩
  · unfold App.next_song App.previous_song
    simp [hne, hc]
  · unfold App.previous_song
    simp [hne, hc]
  · unfold App.previous_song
    simp [hne, hc]
  · unfold App.previous_song
    simp [hne, hc]
    have h2 : i + a.songs.length - 1 = (i - 1) + a.songs.length := by omega
    rw [h2, Nat.add_mod_right]
    exact Nat.mod_eq_of_lt (by omega)

/-- C4 witness at a concrete input: from selection 0 on the one-track
catalog, `previous_song` wraps to N-1. -/
theorem C4_witness :
    (App.previous_song app1).current_song = some (app1.songs.length - 1) :=
  (C4_previous_decrements app1 (by decide)).2.2.1 rfl

/-- C3 counterexample: with the one-track catalog and no selection (a
reachable startup state), `previous_song (next_song s)` is `Some 0`, not the
original `None`, so previous is not the exact inverse of next on all
selections. -/
theorem C3_cex :
    App.previous_song (App.next_song app0) ≠ app0 := by decide

/-- C3 amended: `previous_song` and `next_song` are mutually inverse on every
state whose selection is a valid index `Some i` (and on an empty catalog,
where both are no-ops); the identities fail only on a `None` selection over a
non-empty catalog, where both composites land on `Some`. -/
theorem C3_prev_next_inverse (a : App) :
    (a.songs = [] → App.previous_song (App.next_song a) = a ∧
      App.next_song (App.previous_song a) = a) ∧
    (∀ i, a.current_song = some i → i < a.songs.length →
      App.previous_song (App.next_song a) = a ∧
      App.next_song (App.previous_song a) = a) := by
  obtain ⟨songs, cur, pl, sk, st, sh⟩ := a
  refine ⟨fun hs => ?_, fun i hc hv => ?_⟩
  · subst hs
    constructor <;> rfl
  · simp only at hc hv
    subst hc
    have hne : songs.isEmpty = false := by
      cases songs
      · simp at hv
      · rfl
    constructor
    · unfold App.next_song App.previous_song
      simp [hne]
      exact prev_next_mod i songs.length hv
    · unfold App.previous_song App.next_song
      simp [hne]
      have h2 : i + songs.length - 1 + 1 = i + songs.length := by omega
      rw [h2, Nat.add_mod_right]
      exact Nat.mod_eq_of_lt hv

/-- C3 witness at a concrete input: from the valid selection 0 on the
one-track catalog, both inverse identities hold. -/
theorem C3_witness :
    App.previous_song (App.next_song app1) = app1 ∧
    App.next_song (App.previous_song app1) = app1 :=
  (C3_prev_next_inverse app1).2 0 rfl (by decide)

/-- Iterating `next_song` from a valid selection walks the catalog modulo its
length. -/
lemma next_song_iterate (a : App) (i : Nat) (hc : a.current_song = some i)
    (hv : i < a.songs.length) (k : Nat) :
    App.next_song^[k] a =
      { a with current_song := some ((i + k) % a.songs.length) } := by
  induction k with
  | zero =>
    rw [Function.iterate_zero_apply]
    have h0 : (i + 0) % a.songs.length = i := by
      rw [Nat.add_zero]
      exact Nat.mod_eq_of_lt hv
    rw [h0]
    obtain ⟨songs, cur, pl, sk, st, sh⟩ := a
    simp_all
  | succ k ih =>
    rw [Function.iterate_succ_apply', ih]
    have hne : a.songs.isEmpty = false := by
      cases hs : a.songs
      · rw [hs] at hv
        simp at hv
      · rfl
    unfold App.next_song
    simp [hne]
    rw [Nat.add_assoc]

/-- C5 counterexample: on the one-track catalog with no selection (a
reachable startup state), one application of `next_song` (N = 1) yields
selection `Some 0`, not the original `None`: the cyclic invariant fails for
the starting selection `None`. -/
theorem C5_cex :
    App.next_song^[app0.songs.length] app0 ≠ app0 := by decide

/-- C5 amended: on a non-empty catalog of size N, applying `next_song` N
times from any valid selection `Some i` returns the state (hence the
selection) to its original value; a counterexample shows the invariant fails
from the starting selection `None`. -/
theorem C5_cycle (a : App) (i : Nat) (hc : a.current_song = some i)
    (hv : i < a.songs.length) :
    App.next_song^[a.songs.length] a = a := by
  rw [next_song_iterate a i hc hv]
  have h1 : (i + a.songs.length) % a.songs.length = i := by
    rw [Nat.add_mod_right]
    exact Nat.mod_eq_of_lt hv
  rw [h1]
  obtain ⟨songs, cur, pl, sk, st, sh⟩ := a
  simp_all

/-- C5 witness at a concrete input: from selection 0 on the one-track
catalog, one `next_song` returns to the original state. -/
theorem C5_witness :
    App.next_song^[app1.songs.length] app1 = app1 :=
  C5_cycle app1 0 rfl (by decide)

/-- The snapshot depends only on the selection, the catalog and the
`playing` flag. -/
lemma now_playing_snapshot_congr (a b : App) (h1 : a.current_song = b.current_song)
    (h2 : a.songs = b.songs) (h3 : a.playing = b.playing) :
    now_playing_snapshot a = now_playing_snapshot b := by
  unfold now_playing_snapshot
  rw [h1, h2, h3]

/-- C2 counterexample: `app2` is reachable and Playing; `play` on it with a
failing decoder returns `DecodeError` and drops the sink, but the `playing`
flag stays `true`, so the very next snapshot still renders the stale
`Now Playing: t.mp3 [Playing]` status instead of reporting Stopped. -/
theorem C2_cex :
    Reachable app2 ∧
    playbackState app2 = PlaybackState.Playing ∧
    (App.play envDecodeFail app2).result = Except.error PlayError.decodeError ∧
    (App.play envDecodeFail app2).app.playing = true ∧
    now_playing_snapshot (App.play envDecodeFail app2).app =
      some ("t.mp3", true) :=
  ⟨Reachable.play envOk (Reachable.selectFirst (Reachable.init ["t.mp3"] 0)),
   rfl, rfl, rfl, rfl⟩

/-- C2 amended: when `play` fails it returns the error to its caller and
leaves no dangling handle (the sink is `None`, so the derived PlaybackState
is `Stopped`); but the `playing` flag keeps its prior value and the snapshot
is unchanged, still reporting the prior track's Playing/Paused status. -/
theorem C2_play_failure (env : Env) (a : App) (e : PlayError)
    (h : (App.play env a).result = Except.error e) :
    (App.play env a).app.sink = none ∧
    playbackState (App.play env a).app = PlaybackState.Stopped ∧
    (App.play env a).app.playing = a.playing ∧
    now_playing_snapshot (App.play env a).app = now_playing_snapshot a := by
  revert h
  unfold App.play
  repeat' split
  all_goals (cases hsh : a.stream_handle <;> intro h)
  all_goals first
    | exact ⟨rfl, rfl, rfl, now_playing_snapshot_congr _ _ rfl rfl rfl⟩
    | simp at h

/-- C2 amended witness at a concrete input: the failing `play` on `app2`
leaves no sink and a Stopped derived state. -/
theorem C2_witness :
    (App.play envDecodeFail app2).app.sink = none ∧
    playbackState (App.play envDecodeFail app2).app = PlaybackState.Stopped ∧
    (App.play envDecodeFail app2).app.playing = app2.playing ∧
    now_playing_snapshot (App.play envDecodeFail app2).app =
      now_playing_snapshot app2 :=
  C2_play_failure envDecodeFail app2 PlayError.decodeError rfl

/-- C1 counterexample: the startup state over the empty catalog is reachable,
and `play` on it returns `Ok` (a successful `play()`), yet zero playback
handles are live afterwards — so "after any successful play() exactly one
handle is live" fails on the silent no-op case. -/
theorem C1_cex :
    Reachable (appInit [] 0) ∧
    (App.play envOk (appInit [] 0)).result = Except.ok () ∧
    liveHandles (App.play envOk (appInit [] 0)).app = 0 :=
  ⟨Reachable.init [] 0, rfl, rfl⟩

/-- C1 amended: at most one handle ever exists (the Controller stores at most
one sink), `play` always emits any `sink.stop()` of the old handle before the
new `Sink::try_new`, a successful `play` either constructed a new sink and
leaves exactly one handle live or was a silent no-op leaving the state
untouched, and a failed `play` leaves zero handles live. -/
theorem C1_at_most_one_handle (env : Env) (a : App) (hr : Reachable a) :
    liveHandles a ≤ 1 ∧
    stopBeforeCreate (App.play env a).events = true ∧
    ((App.play env a).result = Except.ok () →
      ((App.play env a).events.any BackendEvent.isCreate = true ∧
        liveHandles (App.play env a).app = 1) ∨
      ((App.play env a).events.any BackendEvent.isCreate = false ∧
        (App.play env a).app = a)) ∧
    (∀ e, (App.play env a).result = Except.error e →
      liveHandles (App.play env a).app = 0) := by
  obtain ⟨d, hd⟩ := reachable_stream_handle hr
  refine ⟨?_, ?_, ?_, ?_⟩
  · unfold liveHandles
    split <;> simp
  · unfold App.play
    rw [hd]
    repeat' split
    all_goals rfl
  · unfold App.play
    rw [hd]
    repeat' split
    all_goals intro hok
    all_goals first
      | (left; exact ⟨rfl, rfl⟩)
      | (right; exact ⟨rfl, rfl⟩)
      | simp at hok
  · unfold App.play
    rw [hd]
    repeat' split
    all_goals intro e he
    all_goals first
      | rfl
      | simp at he

/-- C1 amended witness at a concrete input: `play` on the reachable state
`app1` under the all-success environment stops-before-creates and leaves
exactly one live handle. -/
theorem C1_witness :
    liveHandles app1 ≤ 1 ∧
    stopBeforeCreate (App.play envOk app1).events = true :=
  ⟨(C1_at_most_one_handle envOk app1
      (Reachable.selectFirst (Reachable.init ["t.mp3"] 0))).1,
   (C1_at_most_one_handle envOk app1
      (Reachable.selectFirst (Reachable.init ["t.mp3"] 0))).2.1⟩

/-- C9: the output device is opened exactly once, by `App::new`; no other
operation ever emits a device open or reassigns `stream`/`stream_handle`,
and every sink `play` creates is allocated on the stored handle. -/
theorem C9_output_opened_once (ok : Bool) (d : Nat) (env : Env) (a : App) :
    ((App.new ok d).2.filter (fun e => e.isOpen)).length = 1 ∧
    ((App.play env a).events.filter (fun e => e.isOpen)).length = 0 ∧
    (App.play env a).app.stream = a.stream ∧
    (App.play env a).app.stream_handle = a.stream_handle ∧
    (∀ h, BackendEvent.sinkTryNew h ∈ (App.play env a).events →
      a.stream_handle = some h) ∧
    ((App.pause a).2.filter (fun e => e.isOpen)).length = 0 ∧
    (App.pause a).1.stream = a.stream ∧
    (App.pause a).1.stream_handle = a.stream_handle ∧
    (App.next_song a).stream = a.stream ∧
    (App.next_song a).stream_handle = a.stream_handle ∧
    (App.previous_song a).stream = a.stream ∧
    (App.previous_song a).stream_handle = a.stream_handle ∧
    (App.select_first_song a).stream = a.stream ∧
    (App.select_first_song a).stream_handle = a.stream_handle := by
  refine ⟨?_, ?_, (play_app_frame env a).2.2.1, (play_app_frame env a).2.2.2,
    ?_, ?_, (pause_frame a).2.2.1, (pause_frame a).2.2.2.1,
    (next_song_frame a).2.2.2.1, (next_song_frame a).2.2.2.2,
    (previous_song_frame a).2.2.2.1, (previous_song_frame a).2.2.2.2,
    (select_first_song_frame a).2.2.2.1, (select_first_song_frame a).2.2.2.2⟩
  · unfold App.new
    split <;> rfl
  · unfold App.play
    repeat' split
    all_goals (cases a.stream_handle <;> rfl)
  · unfold App.play
    repeat' split
    all_goals (cases hsh : a.stream_handle <;> (intro h hmem; simp at hmem))
    all_goals simp [hmem]
  · unfold App.pause
    repeat' split
    all_goals rfl

/-- C9 witness at a concrete input: `play` on `app1` makes no device open and
its single sink allocation targets the stored handle 0. -/
theorem C9_witness :
    app1.stream_handle = some 0 :=
  (C9_output_opened_once true 0 envOk app1).2.2.2.2.1 0 (by decide)
